import Mathlib

/-!
Verification of the `car_gazebo_plugin` control core
(`src/car_gazebo_plugin/src/car_gazebo_plugin.cpp`).

Simulation time is modelled as an exact rational number (the C++ code uses
`gazebo::common::Time` and converts differences to `double`); PID gains and
joint positions are likewise rationals.  Components whose code lives only in
the (absent) header — `get_joint`, the joystick and Ackermann callbacks — are
modelled from the spec and marked as such in their doc comments.
-/

namespace CarPlugin

/-- Joint types, as far as the plugin distinguishes them: Gazebo's
`Joint::FIXED_JOINT` against everything else (line 40 of the source only
tests equality with `FIXED_JOINT`). -/
inductive JointType where
  | fixed
  | nonFixed
  deriving DecidableEq, Repr

/-- A physics-engine joint as seen by the plugin: a name, a type, and a
current position (`joint->Position()`). -/
structure Joint where
  name : String
  jtype : JointType
  position : ℚ
  deriving DecidableEq, Repr

/-- A PID gain triple, mirroring `gazebo::common::PID(p, i, d)`. -/
structure PID where
  p : ℚ
  i : ℚ
  d : ℚ
  deriving DecidableEq, Repr

/-- The default PID installed for every discovered joint
(lines 44-47: `SetPGain(200.0); SetIGain(0.0); SetDGain(0.0)`). -/
def defaultPID : PID := ⟨200, 0, 0⟩

/-- Joint discovery (Load, lines 38-52): walk `model_->GetJoints()`, skip
fixed joints, register every other joint in `joints_` with the default PID
and enter `0.0` into `joint_targets_`.  Returns the registry (name, joint,
pid) in iteration order and the `joint_targets_` entries. -/
def discoverJoints : List Joint → List (String × Joint × PID) × List (String × ℚ)
  | [] => ([], [])
  | j :: rest =>
    if j.jtype = JointType.fixed then
      discoverJoints rest
    else
      let r := discoverJoints rest
      ((j.name, j, defaultPID) :: r.1, (j.name, (0 : ℚ)) :: r.2)

/-- The joint-state message build loop (Update, lines 153-162): for each
registry entry push the name onto `msg.name` and the joint's position onto
`msg.position`. -/
def buildJointStateMsg (registry : List (String × Joint × PID)) :
    List String × List ℚ :=
  registry.foldl (fun msg e => (msg.1 ++ [e.1], msg.2 ++ [e.2.1.position])) ([], [])

/-- The scheduler timestamps and period (`last_sim_time_`, `last_update_time_`,
`update_period_ms_`). -/
structure TickState where
  last_sim_time : ℚ
  last_update_time : ℚ
  update_period_ms : ℚ
  deriving DecidableEq, Repr

/-- The constructor (lines 9-13): both timestamps zero, period 8 ms. -/
def initTickState : TickState := ⟨0, 0, 8⟩

/-- `CarGazeboPlugin::Update` (lines 138-168) on the timestamp state.
Returns the new state and whether a joint-state publish happened this tick.
On the calibration branch (`last_sim_time_ == 0`) both timestamps are set to
`cur_time` and the function returns early; otherwise a publish fires iff
`update_dt * 1000 >= update_period_ms_`, resetting `last_update_time_`, and
`last_sim_time_` is set to `cur_time` unconditionally. -/
def Update (s : TickState) (cur_time : ℚ) : TickState × Bool :=
  if s.last_sim_time = 0 then
    ({ s with last_sim_time := cur_time, last_update_time := cur_time }, false)
  else
    let update_dt := cur_time - s.last_update_time
    if update_dt * 1000 ≥ s.update_period_ms then
      ({ s with last_sim_time := cur_time, last_update_time := cur_time }, true)
    else
      ({ s with last_sim_time := cur_time }, false)

/-- Run `Update` over a list of tick times, collecting the publish flags. -/
def runTicks (s : TickState) : List ℚ → List Bool
  | [] => []
  | t :: ts => (Update s t).2 :: runTicks (Update s t).1 ts

/-- The state after running `Update` over a list of tick times. -/
def finalTickState (s : TickState) : List ℚ → TickState
  | [] => s
  | t :: ts => finalTickState (Update s t).1 ts

/-- The sim times of the ticks on which a publish fires. -/
def pubTimes (s : TickState) : List ℚ → List ℚ
  | [] => []
  | t :: ts =>
    if (Update s t).2 then t :: pubTimes (Update s t).1 ts
    else pubTimes (Update s t).1 ts

/-- Load-time configuration failure.  Modelled from the spec:
"**ConfigurationError** (fatal, load-time only): a required role joint is
missing from the model." -/
inductive ConfigurationError where
  | missingJoint (name : String)
  deriving DecidableEq, Repr

/-- Update an association list at a key (`std::map` style assignment). -/
def setAssoc {α : Type} (k : String) (v : α) : List (String × α) → List (String × α)
  | [] => [(k, v)]
  | e :: rest => if e.1 = k then (k, v) :: rest else e :: setAssoc k v rest

/-- Lookup in an association list. -/
def lookupAssoc {α : Type} (k : String) : List (String × α) → Option α
  | [] => none
  | e :: rest => if e.1 = k then some e.2 else lookupAssoc k rest

/-- The Gazebo `JointController` as the plugin drives it: per-joint position
and velocity PIDs and targets, keyed by the joint's (scoped) name. -/
structure JointController where
  posPID : List (String × PID)
  velPID : List (String × PID)
  posTargets : List (String × ℚ)
  velTargets : List (String × ℚ)
  deriving DecidableEq, Repr

/-- A joint controller with nothing installed yet. -/
def emptyJC : JointController := ⟨[], [], [], []⟩

/-- `jc->SetPositionPID(name, pid)`. -/
def setPositionPID (jc : JointController) (name : String) (pid : PID) : JointController :=
  { jc with posPID := setAssoc name pid jc.posPID }

/-- `jc->SetVelocityPID(name, pid)`. -/
def setVelocityPID (jc : JointController) (name : String) (pid : PID) : JointController :=
  { jc with velPID := setAssoc name pid jc.velPID }

/-- `jc->SetPositionTarget(name, v)`. -/
def setPositionTarget (jc : JointController) (name : String) (v : ℚ) : JointController :=
  { jc with posTargets := setAssoc name v jc.posTargets }

/-- `jc->SetVelocityTarget(name, v)`. -/
def setVelocityTarget (jc : JointController) (name : String) (v : ℚ) : JointController :=
  { jc with velTargets := setAssoc name v jc.velTargets }

/-- Modelled from the spec: `get_joint` is declared in the (absent) header
`car_gazebo_plugin.hpp`; per the spec, "Lookup by name fails with
`JointNotFound` if absent — this must not happen for any role joint and is
treated as a load-time fatal error", and load must abort on a missing role
joint.  We model it as a name lookup in the model's joint list that aborts
load with a `ConfigurationError` when the joint is absent. -/
def get_joint (model : List Joint) (name : String) : Except ConfigurationError Joint :=
  match model.find? (fun j => j.name = name) with
  | some j => Except.ok j
  | none => Except.error (ConfigurationError.missingJoint name)

/-- The ten role joint names bound at load, in source order
(lines 66-111). -/
def roleNames : List String :=
  ["front_left_wheel_steer_joint", "front_left_shock_joint",
   "front_right_shock_joint", "back_left_shock_joint",
   "back_right_shock_joint", "front_right_wheel_steer_joint",
   "front_left_wheel_joint", "front_right_wheel_joint",
   "back_left_wheel_joint", "back_right_wheel_joint"]

/-- The `fake_car` block of `Load` (lines 60-111): bind each role joint via
`get_joint` and install the role PIDs and shock targets on the joint
controller, in source order.  `shock_p` and `shock_d` are tunable constants
defined in the absent header, so they are parameters here.  Scoped names are
modelled by the joint name itself. -/
def loadFakeCar (shock_p shock_d : ℚ) (model : List Joint) (jc0 : JointController) :
    Except ConfigurationError JointController := do
  let fl_str_joint ← get_joint model "front_left_wheel_steer_joint"
  let jc := setPositionPID jc0 fl_str_joint.name ⟨1, 0, 0⟩
  let fl_shock_joint ← get_joint model "front_left_shock_joint"
  let jc := setPositionPID jc fl_shock_joint.name ⟨shock_p, 0, shock_d⟩
  let jc := setPositionTarget jc fl_shock_joint.name 0
  let fr_shock_joint ← get_joint model "front_right_shock_joint"
  let jc := setPositionPID jc fr_shock_joint.name ⟨shock_p, 0, shock_d⟩
  let jc := setPositionTarget jc fr_shock_joint.name 0
  let bl_shock_joint ← get_joint model "back_left_shock_joint"
  let jc := setPositionPID jc bl_shock_joint.name ⟨shock_p, 0, shock_d⟩
  let jc := setPositionTarget jc bl_shock_joint.name 0
  let br_shock_joint ← get_joint model "back_right_shock_joint"
  let jc := setPositionPID jc br_shock_joint.name ⟨shock_p, 0, shock_d⟩
  let jc := setPositionTarget jc br_shock_joint.name 0
  let fr_str_joint ← get_joint model "front_right_wheel_steer_joint"
  let jc := setPositionPID jc fr_str_joint.name ⟨1, 0, 0⟩
  let _fl_axle_joint ← get_joint model "front_left_wheel_joint"
  let _fr_axle_joint ← get_joint model "front_right_wheel_joint"
  let bl_axle_joint ← get_joint model "back_left_wheel_joint"
  let jc := setVelocityPID jc bl_axle_joint.name ⟨1/10, 1/100, 0⟩
  let br_axle_joint ← get_joint model "back_right_wheel_joint"
  let jc := setVelocityPID jc br_axle_joint.name ⟨1/10, 1/100, 0⟩
  return jc

/-- The joint controller `loadFakeCar` produces whenever it succeeds:
because each `get_joint` returns the joint with exactly the requested name,
the installed keys are the role names themselves. -/
def expectedJC (shock_p shock_d : ℚ) : JointController :=
  { posPID :=
      [("front_left_wheel_steer_joint", ⟨1, 0, 0⟩),
       ("front_left_shock_joint", ⟨shock_p, 0, shock_d⟩),
       ("front_right_shock_joint", ⟨shock_p, 0, shock_d⟩),
       ("back_left_shock_joint", ⟨shock_p, 0, shock_d⟩),
       ("back_right_shock_joint", ⟨shock_p, 0, shock_d⟩),
       ("front_right_wheel_steer_joint", ⟨1, 0, 0⟩)],
    velPID :=
      [("back_left_wheel_joint", ⟨1/10, 1/100, 0⟩),
       ("back_right_wheel_joint", ⟨1/10, 1/100, 0⟩)],
    posTargets :=
      [("front_left_shock_joint", 0), ("front_right_shock_joint", 0),
       ("back_left_shock_joint", 0), ("back_right_shock_joint", 0)],
    velTargets := [] }

/-- Is a load result a failure? -/
def isError {ε α : Type} : Except ε α → Bool
  | Except.error _ => true
  | Except.ok _ => false

/-- A command payload value: a float that is either NaN or an actual number.
Modelled from the spec, which treats NaN payloads as malformed commands. -/
inductive FVal where
  | nan
  | val (q : ℚ)
  deriving DecidableEq, Repr

/-- Modelled from the spec: a drive command, "{linear_speed, steering_angle,
timestamp}".  The timestamp plays no role in translation and is omitted. -/
structure DriveCommand where
  linear_speed : FVal
  steering_angle : FVal
  deriving DecidableEq, Repr

/-- The per-role targets the command translator writes (front axles carry no
target; shocks are held at ride height). -/
structure RoleTargets where
  fl_steer : ℚ
  fr_steer : ℚ
  bl_axle : ℚ
  br_axle : ℚ
  fl_shock : ℚ
  fr_shock : ℚ
  bl_shock : ℚ
  br_shock : ℚ
  deriving DecidableEq, Repr

/-- Modelled from the spec: the command translator (the joystick and
Ackermann callbacks live in the absent header).  "Set front-left-steer and
front-right-steer targets to `steering_angle` ... Set rear-left-axle and
rear-right-axle velocity targets to `linear_speed`"; "malformed command
(e.g., NaN) is rejected — target update skipped, last valid target
retained." -/
def translate (cmd : DriveCommand) (tg : RoleTargets) : RoleTargets :=
  match cmd.linear_speed, cmd.steering_angle with
  | FVal.val s, FVal.val a =>
    { tg with fl_steer := a, fr_steer := a, bl_axle := s, br_axle := s }
  | _, _ => tg

/-- Is a drive command malformed (some payload is NaN)? -/
def malformed (cmd : DriveCommand) : Bool :=
  match cmd.linear_speed, cmd.steering_angle with
  | FVal.val _, FVal.val _ => false
  | _, _ => true

/-- The whole plugin state `Update` can observe: the scheduler timestamps,
the joint registry with its targets, and the role targets held by the joint
controller.  `Update` (lines 138-168) reads only the timestamps and the
registry; it never touches any target. -/
structure PluginState where
  tick : TickState
  registry : List (String × Joint × PID)
  joint_targets : List (String × ℚ)
  jc : JointController
  deriving DecidableEq, Repr

/-- `CarGazeboPlugin::Update` on the full plugin state: step the timestamps
and, when the publish gate passes, emit the joint-state message built from
the registry.  No target is modified. -/
def UpdateP (s : PluginState) (cur_time : ℚ) :
    PluginState × Option (List String × List ℚ) :=
  let r := Update s.tick cur_time
  ({ s with tick := r.1 },
   if r.2 then some (buildJointStateMsg s.registry) else none)

/-- Run `UpdateP` over a list of tick times, collecting the emitted
messages (`none` on ticks without a publish). -/
def runTicksP (s : PluginState) : List ℚ → List (Option (List String × List ℚ))
  | [] => []
  | t :: ts => (UpdateP s t).2 :: runTicksP (UpdateP s t).1 ts

/-- The plugin state after running `UpdateP` over a list of tick times. -/
def finalStateP (s : PluginState) : List ℚ → PluginState
  | [] => s
  | t :: ts => finalStateP (UpdateP s t).1 ts

/-- A concrete model holding exactly the ten role joints. -/
def model10 : List Joint :=
  roleNames.map (fun n => ⟨n, JointType.nonFixed, 0⟩)

/-- A concrete model missing the `front_left_shock_joint` role. -/
def model9 : List Joint :=
  (roleNames.filter (fun n => n ≠ "front_left_shock_joint")).map
    (fun n => ⟨n, JointType.nonFixed, 0⟩)

section Theorems

/-- `Except.ok` passes through bind. -/
theorem exbind_ok {ε α β : Type} (a : α) (f : α → Except ε β) :
    (Except.ok a >>= f : Except ε β) = f a := rfl

/-- `Except.error` short-circuits bind. -/
theorem exbind_error {ε α β : Type} (e : ε) (f : α → Except ε β) :
    (Except.error e >>= f : Except ε β) = Except.error e := rfl

/-- A successful `get_joint` returns a joint of the model bearing exactly the
requested name. -/
theorem get_joint_ok (model : List Joint) (n : String) (j : Joint)
    (h : get_joint model n = Except.ok j) : j.name = n ∧ j ∈ model := by
  unfold get_joint at h
  cases hf : model.find? (fun j => j.name = n) with
  | none => rw [hf] at h; exact absurd h (by simp)
  | some j' =>
    rw [hf] at h
    cases h
    refine ⟨?_, List.mem_of_find?_eq_some hf⟩
    have := List.find?_some hf
    simpa using this

/-- C2: on a tick with `last_sim_time == 0`, `Update` publishes nothing and
sets both timestamps to the current sim time before returning. -/
theorem update_calibration_tick (s : TickState) (t : ℚ)
    (h : s.last_sim_time = 0) :
    Update s t = ({ s with last_sim_time := t, last_update_time := t }, false) := by
  simp [Update, h]

/-- Witness for `update_calibration_tick` at the freshly constructed
state and tick time 5. -/
theorem update_calibration_tick_witness :
    Update initTickState 5
      = ({ initTickState with last_sim_time := 5, last_update_time := 5 }, false) :=
  update_calibration_tick initTickState 5 rfl

/-- C3: translating a well-formed drive command sets both front steer
targets to the steering angle and both rear axle velocity targets to the
linear speed; in particular speed 2.0 / angle 0.3 yields steer targets 0.3
and rear axle targets 2.0. -/
theorem translate_wellformed (s a : ℚ) (tg : RoleTargets) :
    translate ⟨FVal.val s, FVal.val a⟩ tg
      = { tg with fl_steer := a, fr_steer := a, bl_axle := s, br_axle := s } ∧
    (translate ⟨FVal.val 2, FVal.val 0.3⟩ tg).fl_steer = 0.3 ∧
    (translate ⟨FVal.val 2, FVal.val 0.3⟩ tg).fr_steer = 0.3 ∧
    (translate ⟨FVal.val 2, FVal.val 0.3⟩ tg).bl_axle = 2 ∧
    (translate ⟨FVal.val 2, FVal.val 0.3⟩ tg).br_axle = 2 :=
  ⟨rfl, rfl, rfl, rfl, rfl⟩

/-- C4: a malformed drive command (some payload NaN) leaves every role
target unchanged; the translator is total, so no error reaches the
caller. -/
theorem translate_malformed (cmd : DriveCommand) (tg : RoleTargets)
    (h : malformed cmd = true) : translate cmd tg = tg := by
  unfold malformed at h
  unfold translate
  cases hs : cmd.linear_speed <;> cases ha : cmd.steering_angle <;> simp_all

/-- Witness for `translate_malformed` at a NaN-speed command. -/
theorem translate_malformed_witness :
    translate ⟨FVal.nan, FVal.val 0.3⟩ ⟨1, 1, 1, 1, 0, 0, 0, 0⟩
      = ⟨1, 1, 1, 1, 0, 0, 0, 0⟩ :=
  translate_malformed ⟨FVal.nan, FVal.val 0.3⟩ ⟨1, 1, 1, 1, 0, 0, 0, 0⟩ rfl

/-- C9: joint discovery registers exactly the non-fixed joints, keeps every
registered joint's default PID at (200, 0, 0), and admits no fixed joint;
conversely every non-fixed model joint is registered. -/
theorem discovery_registry (allJoints : List Joint) :
    (discoverJoints allJoints).1
        = (allJoints.filter (fun j => j.jtype ≠ JointType.fixed)).map
            (fun j => (j.name, j, defaultPID)) ∧
    (∀ e ∈ (discoverJoints allJoints).1,
        e.2.2 = PID.mk 200 0 0 ∧ e.2.1.jtype ≠ JointType.fixed) ∧
    (∀ j ∈ allJoints, j.jtype ≠ JointType.fixed →
        (j.name, j, defaultPID) ∈ (discoverJoints allJoints).1) := by
  refine ⟨?_, ?_, ?_⟩
  · induction allJoints with
    | nil => rfl
    | cons j rest ih =>
      by_cases hj : j.jtype = JointType.fixed <;>
        simp [discoverJoints, hj, ih]
  · induction allJoints with
    | nil => simp [discoverJoints]
    | cons j rest ih =>
      by_cases hj : j.jtype = JointType.fixed <;>
        simp only [discoverJoints, hj, if_true, if_false, ite_true, ite_false,
          List.mem_cons] <;> intro e he
      · exact ih e he
      · rcases he with rfl | he'
        · exact ⟨rfl, hj⟩
        · exact ih e he'
  · induction allJoints with
    | nil => simp
    | cons j rest ih =>
      intro j' hj' hnf
      rcases List.mem_cons.mp hj' with rfl | hmem
      · simp [discoverJoints, hnf]
      · by_cases hj : j.jtype = JointType.fixed <;>
          simp only [discoverJoints, hj, ite_true, ite_false, List.mem_cons]
        · exact ih j' hmem hnf
        · exact Or.inr (ih j' hmem hnf)

/-- Witness for `discovery_registry`: a fixed joint is skipped and a
non-fixed joint is registered with the default PID. -/
theorem discovery_registry_witness :
    (Joint.mk "a" JointType.nonFixed 1).jtype ≠ JointType.fixed ∧
    ("a", Joint.mk "a" JointType.nonFixed 1, defaultPID) ∈
      (discoverJoints
        [⟨"f", JointType.fixed, 0⟩, ⟨"a", JointType.nonFixed, 1⟩]).1 :=
  ⟨by decide,
   (discovery_registry [⟨"f", JointType.fixed, 0⟩, ⟨"a", JointType.nonFixed, 1⟩]).2.2
     ⟨"a", JointType.nonFixed, 1⟩ (by simp) (by decide)⟩

/-- The message build loop appends names and positions in registry order. -/
theorem buildJointStateMsg_eq (registry : List (String × Joint × PID)) :
    buildJointStateMsg registry
      = (registry.map Prod.fst, registry.map (fun e => e.2.1.position)) := by
  suffices h : ∀ acc : List String × List ℚ,
      registry.foldl (fun msg e => (msg.1 ++ [e.1], msg.2 ++ [e.2.1.position])) acc
        = (acc.1 ++ registry.map Prod.fst,
           acc.2 ++ registry.map (fun e => e.2.1.position)) by
    simpa [buildJointStateMsg] using h ([], [])
  induction registry with
  | nil => intro acc; simp
  | cons e rest ih => intro acc; simp [List.foldl_cons, ih]

/-- `getD` on a mapped list hits the image of the corresponding element. -/
theorem getD_map_fin {α β : Type} (f : α → β) (l : List α) (i : Fin l.length)
    (d : β) : (l.map f).getD i d = f (l.get i) := by
  induction l with
  | nil => exact absurd i.isLt (by simp)
  | cons a rest ih =>
    match i with
    | ⟨0, _⟩ => rfl
    | ⟨n + 1, h⟩ =>
      simpa [List.getD] using ih ⟨n, by simpa using h⟩

/-- C7: every joint-state message `Update` emits has equally long name and
position arrays, the names follow the registry's iteration order, and for
every index the position is the position of the joint named at that
index. -/
theorem joint_state_msg_aligned (s : PluginState) (t : ℚ)
    (m : List String × List ℚ) (h : (UpdateP s t).2 = some m) :
    m.1.length = m.2.length ∧
    m.1 = s.registry.map Prod.fst ∧
    ∀ i : Fin s.registry.length,
      m.1.getD i "" = (s.registry.get i).1 ∧
      m.2.getD i 0 = (s.registry.get i).2.1.position := by
  have hm : m = buildJointStateMsg s.registry := by
    unfold UpdateP at h
    by_cases hp : (Update s.tick t).2 <;> simp [hp] at h
    exact h.symm
  subst hm
  rw [buildJointStateMsg_eq]
  refine ⟨by simp, rfl, fun i => ⟨?_, ?_⟩⟩
  · exact getD_map_fin Prod.fst s.registry i ""
  · exact getD_map_fin (fun e => e.2.1.position) s.registry i 0

/-- A concrete running plugin state with a two-joint registry, ready to
publish. -/
def sW : PluginState :=
  { tick := ⟨1, 1, 8⟩,
    registry := [("a", ⟨"a", JointType.nonFixed, 3⟩, defaultPID),
                 ("b", ⟨"b", JointType.nonFixed, 5⟩, defaultPID)],
    joint_targets := [("a", 0), ("b", 0)],
    jc := emptyJC }

/-- Witness for `joint_state_msg_aligned` on a concrete publishing tick. -/
theorem joint_state_msg_aligned_witness :
    (buildJointStateMsg sW.registry).1.length
        = (buildJointStateMsg sW.registry).2.length ∧
    (buildJointStateMsg sW.registry).1 = sW.registry.map Prod.fst ∧
    ∀ i : Fin sW.registry.length,
      (buildJointStateMsg sW.registry).1.getD i ""
          = (sW.registry.get i).1 ∧
      (buildJointStateMsg sW.registry).2.getD i 0
          = (sW.registry.get i).2.1.position :=
  joint_state_msg_aligned sW 2 (buildJointStateMsg sW.registry)
    (by norm_num [UpdateP, Update, sW])

/-- On a zero-time tick from the freshly calibratable state, `Update`
changes nothing and publishes nothing. -/
theorem updateP_zero (s : PluginState) (h1 : s.tick.last_sim_time = 0)
    (h2 : s.tick.last_update_time = 0) : UpdateP s 0 = (s, none) := by
  obtain ⟨⟨lst, lut, per⟩, reg, jt, jc⟩ := s
  simp only at h1 h2
  subst h1
  subst h2
  simp [UpdateP, Update]

/-- C10: while sim time stays 0, the sentinel `last_sim_time == 0` is
re-established on every tick, so every tick takes the calibration branch:
no message is ever published, the whole plugin state (timestamps, joint
controller targets, joint targets) is unchanged, and the targets installed
at load are all zero (`joint_targets_` entries from discovery, shock
position targets, no velocity targets). -/
theorem zero_time_ticks_idle (s0 : PluginState) (ts : List ℚ)
    (h1 : s0.tick.last_sim_time = 0) (h2 : s0.tick.last_update_time = 0)
    (hz : ∀ t ∈ ts, t = 0) :
    runTicksP s0 ts = List.replicate ts.length none ∧
    finalStateP s0 ts = s0 ∧
    (∀ m : List Joint, ∀ e ∈ (discoverJoints m).2, e.2 = 0) ∧
    (∀ p d : ℚ, (∀ e ∈ (expectedJC p d).posTargets, e.2 = 0) ∧
      (expectedJC p d).velTargets = []) := by
  have hstep := updateP_zero s0 h1 h2
  refine ⟨?_, ?_, ?_, ?_⟩
  · induction ts with
    | nil => rfl
    | cons t rest ih =>
      have ht : t = 0 := hz t (List.mem_cons_self t rest)
      subst ht
      show (UpdateP s0 0).2 :: runTicksP (UpdateP s0 0).1 rest = _
      rw [hstep, List.length_cons, List.replicate_succ]
      exact congrArg (List.cons none)
        (ih (fun u hu => hz u (List.mem_cons_of_mem 0 hu)))
  · induction ts with
    | nil => rfl
    | cons t rest ih =>
      have ht : t = 0 := hz t (List.mem_cons_self t rest)
      subst ht
      show finalStateP (UpdateP s0 0).1 rest = s0
      rw [hstep]
      exact ih (fun u hu => hz u (List.mem_cons_of_mem 0 hu))
  · intro m
    induction m with
    | nil => simp [discoverJoints]
    | cons j rest ih =>
      by_cases hj : j.jtype = JointType.fixed <;>
        simp only [discoverJoints, hj, ite_true, ite_false, List.mem_cons] <;>
        intro e he
      · exact ih e he
      · rcases he with rfl | he'
        · rfl
        · exact ih e he'
  · intro p d
    refine ⟨fun e he => ?_, rfl⟩
    simp [expectedJC] at he
    rcases he with ⟨-, rfl⟩ | ⟨-, rfl⟩ | ⟨-, rfl⟩ | ⟨-, rfl⟩ <;> rfl

/-- A plugin state at load completion: fresh timestamps, role targets as
installed by load. -/
def s0W : PluginState :=
  { tick := initTickState,
    registry := (discoverJoints model10).1,
    joint_targets := (discoverJoints model10).2,
    jc := expectedJC 4 2 }

/-- Witness for `zero_time_ticks_idle`: three zero-time ticks from the
load state publish nothing and change nothing. -/
theorem zero_time_ticks_idle_witness :
    runTicksP s0W [0, 0, 0] = List.replicate 3 none ∧
    finalStateP s0W [0, 0, 0] = s0W :=
  ⟨(zero_time_ticks_idle s0W [0, 0, 0] rfl rfl (by decide)).1,
   (zero_time_ticks_idle s0W [0, 0, 0] rfl rfl (by decide)).2.1⟩

/-- `Update` never changes the configured update period. -/
theorem update_period_const (s : TickState) (t : ℚ) :
    (Update s t).1.update_period_ms = s.update_period_ms := by
  simp only [Update]
  split_ifs <;> rfl

/-- Elements chained strictly above a positive head are positive. -/
theorem chain_lt_pos (a : ℚ) (l : List ℚ)
    (h : List.Chain (fun x y : ℚ => x < y) a l) (ha : 0 < a) :
    ∀ x ∈ l, 0 < x := by
  induction l generalizing a with
  | nil => intro x hx; cases hx
  | cons b rest ih =>
    cases h with
    | cons hab hrest =>
      intro x hx
      rcases List.mem_cons.mp hx with rfl | hx'
      · exact ha.trans hab
      · exact ih b hrest (ha.trans hab) x hx'

/-- While running (positive `last_sim_time`, positive tick times), the
publish times are spaced at least one period apart, each at least a period
after the `last_update_time` they start from. -/
theorem pubTimes_spaced (ts : List ℚ) : ∀ s : TickState,
    0 < s.last_sim_time → (∀ t ∈ ts, 0 < t) →
    List.Chain (fun a b : ℚ => a + s.update_period_ms / 1000 ≤ b)
      s.last_update_time (pubTimes s ts) := by
  induction ts with
  | nil => intro s h0 hpos; exact List.Chain.nil
  | cons t rest ih =>
    intro s h0 hpos
    have hns : ¬ s.last_sim_time = 0 := ne_of_gt h0
    have ht : 0 < t := hpos t (List.mem_cons_self t rest)
    have hrest : ∀ u ∈ rest, 0 < u :=
      fun u hu => hpos u (List.mem_cons_of_mem t hu)
    by_cases hc : (t - s.last_update_time) * 1000 ≥ s.update_period_ms
    · have hu : Update s t
          = ({ s with last_sim_time := t, last_update_time := t }, true) := by
        simp [Update, hns, hc]
      have hpt : pubTimes s (t :: rest)
          = t :: pubTimes { s with last_sim_time := t, last_update_time := t } rest := by
        simp [pubTimes, hu]
      rw [hpt]
      refine List.Chain.cons ?_ ?_
      · have h2 : s.update_period_ms / 1000 ≤ t - s.last_update_time :=
          (div_le_iff₀ (by norm_num : (0:ℚ) < 1000)).mpr hc
        linarith
      · have := ih { s with last_sim_time := t, last_update_time := t }
          (by simpa using ht) hrest
        simpa using this
    · have hu : Update s t = ({ s with last_sim_time := t }, false) := by
        simp [Update, hns, hc]
      have hpt : pubTimes s (t :: rest)
          = pubTimes { s with last_sim_time := t } rest := by
        simp [pubTimes, hu]
      rw [hpt]
      have := ih { s with last_sim_time := t } (by simpa using ht) hrest
      simpa using this

/-- C1: after the calibration tick, a publish fires on a tick exactly when
the accumulated `update_dt` satisfies `update_dt * 1000 >= update_period_ms`
(default 8), a publishing tick resets `last_update_time` to the current sim
time, and over any strictly increasing tick sequence the publish times are
spaced at least `update_period_ms / 1000` seconds apart, so publishes never
occur more often than one per elapsed period. -/
theorem publish_gating (s : TickState) (ts : List ℚ)
    (h0 : 0 < s.last_sim_time)
    (hinc : List.Chain (fun a b : ℚ => a < b) s.last_sim_time ts) :
    (∀ t : ℚ,
      ((Update s t).2 = true ↔
        s.update_period_ms ≤ (t - s.last_update_time) * 1000) ∧
      ((Update s t).2 = true → (Update s t).1.last_update_time = t)) ∧
    List.Chain (fun a b : ℚ => a + s.update_period_ms / 1000 ≤ b)
      s.last_update_time (pubTimes s ts) ∧
    initTickState.update_period_ms = 8 := by
  have hns : ¬ s.last_sim_time = 0 := ne_of_gt h0
  refine ⟨fun t => ⟨⟨?_, ?_⟩, ?_⟩, ?_, rfl⟩
  · intro hp
    by_cases hc : (t - s.last_update_time) * 1000 ≥ s.update_period_ms
    · exact hc
    · exact absurd hp (by simp [Update, hns, hc])
  · intro hc
    simp [Update, hns, ge_iff_le, hc]
  · intro hp
    by_cases hc : (t - s.last_update_time) * 1000 ≥ s.update_period_ms
    · simp [Update, hns, hc]
    · exact absurd hp (by simp [Update, hns, hc])
  · exact pubTimes_spaced ts s h0 (chain_lt_pos _ _ hinc h0)

/-- A running scheduler state: calibrated at sim time 1, last publish at 1,
default 8 ms period. -/
def s1W : TickState := ⟨1, 1, 8⟩

/-- Witness for `publish_gating`: a tick 10 ms after the last publish
fires, and the publish times keep the chained spacing. -/
theorem publish_gating_witness :
    (((Update s1W (101/100)).2 = true ↔
        s1W.update_period_ms ≤ ((101/100 : ℚ) - s1W.last_update_time) * 1000) ∧
      ((Update s1W (101/100)).2 = true →
        (Update s1W (101/100)).1.last_update_time = 101/100)) ∧
    List.Chain (fun a b : ℚ => a + s1W.update_period_ms / 1000 ≤ b)
      s1W.last_update_time (pubTimes s1W [101/100]) :=
  ⟨(publish_gating s1W [101/100] (by norm_num [s1W])
      (List.Chain.cons (by norm_num [s1W]) List.Chain.nil)).1 (101/100),
   (publish_gating s1W [101/100] (by norm_num [s1W])
      (List.Chain.cons (by norm_num [s1W]) List.Chain.nil)).2.1⟩

/-- Whenever the `fake_car` load block succeeds it installs exactly the
controller `expectedJC`, and every role name had a joint of that name in
the model. -/
theorem loadFakeCar_ok (sp sd : ℚ) (model : List Joint) (jc : JointController)
    (h : loadFakeCar sp sd model emptyJC = Except.ok jc) :
    jc = expectedJC sp sd ∧ ∀ n ∈ roleNames, ∃ j ∈ model, j.name = n := by
  unfold loadFakeCar at h
  cases h1 : get_joint model "front_left_wheel_steer_joint" with
  | error e => rw [h1, exbind_error] at h; exact absurd h (by simp)
  | ok j1 =>
  rw [h1, exbind_ok] at h
  obtain ⟨hn1, hm1⟩ := get_joint_ok model _ j1 h1
  cases h2 : get_joint model "front_left_shock_joint" with
  | error e => rw [h2, exbind_error] at h; exact absurd h (by simp)
  | ok j2 =>
  rw [h2, exbind_ok] at h
  obtain ⟨hn2, hm2⟩ := get_joint_ok model _ j2 h2
  cases h3 : get_joint model "front_right_shock_joint" with
  | error e => rw [h3, exbind_error] at h; exact absurd h (by simp)
  | ok j3 =>
  rw [h3, exbind_ok] at h
  obtain ⟨hn3, hm3⟩ := get_joint_ok model _ j3 h3
  cases h4 : get_joint model "back_left_shock_joint" with
  | error e => rw [h4, exbind_error] at h; exact absurd h (by simp)
  | ok j4 =>
  rw [h4, exbind_ok] at h
  obtain ⟨hn4, hm4⟩ := get_joint_ok model _ j4 h4
  cases h5 : get_joint model "back_right_shock_joint" with
  | error e => rw [h5, exbind_error] at h; exact absurd h (by simp)
  | ok j5 =>
  rw [h5, exbind_ok] at h
  obtain ⟨hn5, hm5⟩ := get_joint_ok model _ j5 h5
  cases h6 : get_joint model "front_right_wheel_steer_joint" with
  | error e => rw [h6, exbind_error] at h; exact absurd h (by simp)
  | ok j6 =>
  rw [h6, exbind_ok] at h
  obtain ⟨hn6, hm6⟩ := get_joint_ok model _ j6 h6
  cases h7 : get_joint model "front_left_wheel_joint" with
  | error e => rw [h7, exbind_error] at h; exact absurd h (by simp)
  | ok j7 =>
  rw [h7, exbind_ok] at h
  obtain ⟨hn7, hm7⟩ := get_joint_ok model _ j7 h7
  cases h8 : get_joint model "front_right_wheel_joint" with
  | error e => rw [h8, exbind_error] at h; exact absurd h (by simp)
  | ok j8 =>
  rw [h8, exbind_ok] at h
  obtain ⟨hn8, hm8⟩ := get_joint_ok model _ j8 h8
  cases h9 : get_joint model "back_left_wheel_joint" with
  | error e => rw [h9, exbind_error] at h; exact absurd h (by simp)
  | ok j9 =>
  rw [h9, exbind_ok] at h
  obtain ⟨hn9, hm9⟩ := get_joint_ok model _ j9 h9
  cases h10 : get_joint model "back_right_wheel_joint" with
  | error e => rw [h10, exbind_error] at h; exact absurd h (by simp)
  | ok j10 =>
  rw [h10, exbind_ok] at h
  obtain ⟨hn10, hm10⟩ := get_joint_ok model _ j10 h10
  rw [hn1, hn2, hn3, hn4, hn5, hn6, hn9, hn10] at h
  simp only [pure, Except.pure, Except.ok.injEq] at h
  constructor
  · rw [← h]
    rfl
  · intro n hn
    simp only [roleNames, List.mem_cons, List.not_mem_nil, or_false] at hn
    rcases hn with rfl | rfl | rfl | rfl | rfl | rfl | rfl | rfl | rfl | rfl
    · exact ⟨j1, hm1, hn1⟩
    · exact ⟨j2, hm2, hn2⟩
    · exact ⟨j3, hm3, hn3⟩
    · exact ⟨j4, hm4, hn4⟩
    · exact ⟨j5, hm5, hn5⟩
    · exact ⟨j6, hm6, hn6⟩
    · exact ⟨j7, hm7, hn7⟩
    · exact ⟨j8, hm8, hn8⟩
    · exact ⟨j9, hm9, hn9⟩
    · exact ⟨j10, hm10, hn10⟩

/-- C5: a successful load installs a position PID of (1, 0, 0) on both
front steer joints and a velocity PID of (0.1, 0.01, 0) on both rear axle
joints, while the front axle joints — though bound — get no PID of their
own. -/
theorem role_pid_gains (sp sd : ℚ) (model : List Joint) (jc : JointController)
    (h : loadFakeCar sp sd model emptyJC = Except.ok jc) :
    lookupAssoc "front_left_wheel_steer_joint" jc.posPID = some ⟨1, 0, 0⟩ ∧
    lookupAssoc "front_right_wheel_steer_joint" jc.posPID = some ⟨1, 0, 0⟩ ∧
    lookupAssoc "back_left_wheel_joint" jc.velPID = some ⟨1/10, 1/100, 0⟩ ∧
    lookupAssoc "back_right_wheel_joint" jc.velPID = some ⟨1/10, 1/100, 0⟩ ∧
    lookupAssoc "front_left_wheel_joint" jc.posPID = none ∧
    lookupAssoc "front_left_wheel_joint" jc.velPID = none ∧
    lookupAssoc "front_right_wheel_joint" jc.posPID = none ∧
    lookupAssoc "front_right_wheel_joint" jc.velPID = none := by
  obtain ⟨rfl, -⟩ := loadFakeCar_ok sp sd model jc h
  exact ⟨rfl, rfl, rfl, rfl, rfl, rfl, rfl, rfl⟩

/-- Witness for `role_pid_gains` on a model holding the ten role joints. -/
theorem role_pid_gains_witness :
    lookupAssoc "front_left_wheel_steer_joint" (expectedJC 4 2).posPID
        = some ⟨1, 0, 0⟩ ∧
    lookupAssoc "front_right_wheel_steer_joint" (expectedJC 4 2).posPID
        = some ⟨1, 0, 0⟩ ∧
    lookupAssoc "back_left_wheel_joint" (expectedJC 4 2).velPID
        = some ⟨1/10, 1/100, 0⟩ ∧
    lookupAssoc "back_right_wheel_joint" (expectedJC 4 2).velPID
        = some ⟨1/10, 1/100, 0⟩ ∧
    lookupAssoc "front_left_wheel_joint" (expectedJC 4 2).posPID = none ∧
    lookupAssoc "front_left_wheel_joint" (expectedJC 4 2).velPID = none ∧
    lookupAssoc "front_right_wheel_joint" (expectedJC 4 2).posPID = none ∧
    lookupAssoc "front_right_wheel_joint" (expectedJC 4 2).velPID = none :=
  role_pid_gains 4 2 model10 (expectedJC 4 2) (by rfl)

/-- The zeroed role targets. -/
def tgW : RoleTargets := ⟨0, 0, 0, 0, 0, 0, 0, 0⟩

/-- A concrete well-formed drive command: speed 2.0, angle 0.3. -/
def cmdW : DriveCommand := ⟨FVal.val 2, FVal.val 0.3⟩

/-- C6: a successful load installs a position PID of (shock_p, 0, shock_d)
and a position target of 0.0 on all four shock joints, and no command
translation ever changes a shock target. -/
theorem shock_joints_held (sp sd : ℚ) (model : List Joint)
    (jc : JointController) (h : loadFakeCar sp sd model emptyJC = Except.ok jc) :
    (lookupAssoc "front_left_shock_joint" jc.posPID = some ⟨sp, 0, sd⟩ ∧
     lookupAssoc "front_right_shock_joint" jc.posPID = some ⟨sp, 0, sd⟩ ∧
     lookupAssoc "back_left_shock_joint" jc.posPID = some ⟨sp, 0, sd⟩ ∧
     lookupAssoc "back_right_shock_joint" jc.posPID = some ⟨sp, 0, sd⟩ ∧
     lookupAssoc "front_left_shock_joint" jc.posTargets = some 0 ∧
     lookupAssoc "front_right_shock_joint" jc.posTargets = some 0 ∧
     lookupAssoc "back_left_shock_joint" jc.posTargets = some 0 ∧
     lookupAssoc "back_right_shock_joint" jc.posTargets = some 0) ∧
    ∀ cmd : DriveCommand, ∀ tg : RoleTargets,
      (translate cmd tg).fl_shock = tg.fl_shock ∧
      (translate cmd tg).fr_shock = tg.fr_shock ∧
      (translate cmd tg).bl_shock = tg.bl_shock ∧
      (translate cmd tg).br_shock = tg.br_shock := by
  obtain ⟨rfl, -⟩ := loadFakeCar_ok sp sd model jc h
  refine ⟨⟨rfl, rfl, rfl, rfl, rfl, rfl, rfl, rfl⟩, ?_⟩
  intro cmd tg
  unfold translate
  cases cmd.linear_speed <;> cases cmd.steering_angle <;>
    exact ⟨rfl, rfl, rfl, rfl⟩

/-- Witness for `shock_joints_held` on a model holding the ten role joints
and a concrete drive command. -/
theorem shock_joints_held_witness :
    (lookupAssoc "front_left_shock_joint" (expectedJC 4 2).posPID
        = some ⟨4, 0, 2⟩ ∧
     lookupAssoc "front_right_shock_joint" (expectedJC 4 2).posPID
        = some ⟨4, 0, 2⟩ ∧
     lookupAssoc "back_left_shock_joint" (expectedJC 4 2).posPID
        = some ⟨4, 0, 2⟩ ∧
     lookupAssoc "back_right_shock_joint" (expectedJC 4 2).posPID
        = some ⟨4, 0, 2⟩ ∧
     lookupAssoc "front_left_shock_joint" (expectedJC 4 2).posTargets
        = some 0 ∧
     lookupAssoc "front_right_shock_joint" (expectedJC 4 2).posTargets
        = some 0 ∧
     lookupAssoc "back_left_shock_joint" (expectedJC 4 2).posTargets
        = some 0 ∧
     lookupAssoc "back_right_shock_joint" (expectedJC 4 2).posTargets
        = some 0) ∧
    ((translate cmdW tgW).fl_shock = tgW.fl_shock ∧
     (translate cmdW tgW).fr_shock = tgW.fr_shock ∧
     (translate cmdW tgW).bl_shock = tgW.bl_shock ∧
     (translate cmdW tgW).br_shock = tgW.br_shock) :=
  ⟨(shock_joints_held 4 2 model10 (expectedJC 4 2) (by rfl)).1,
   (shock_joints_held 4 2 model10 (expectedJC 4 2) (by rfl)).2 cmdW tgW⟩

/-- C8: if any required role joint name is absent from the model's joint
set, the load aborts with a `ConfigurationError` (it can never return a
controller). -/
theorem missing_role_aborts_load (sp sd : ℚ) (model : List Joint)
    (n : String) (hn : n ∈ roleNames) (hmiss : ∀ j ∈ model, j.name ≠ n) :
    isError (loadFakeCar sp sd model emptyJC) = true := by
  cases hr : loadFakeCar sp sd model emptyJC with
  | error e => rfl
  | ok jc =>
    obtain ⟨-, hall⟩ := loadFakeCar_ok sp sd model jc hr
    obtain ⟨j, hj, hjn⟩ := hall n hn
    exact absurd hjn (hmiss j hj)

/-- Witness for `missing_role_aborts_load`: a model missing the front-left
shock joint makes load fail. -/
theorem missing_role_aborts_load_witness :
    isError (loadFakeCar 4 2 model9 emptyJC) = true :=
  missing_role_aborts_load 4 2 model9 "front_left_shock_joint"
    (by decide) (by decide)

end Theorems

end CarPlugin
